import Mathlib

/-!
# Verification of the contact-form backend (`src/main.py`)

A shallow embedding of the backend service in `main.py`: the process-wide
SMTP configuration, the `/api/contact/health` endpoint (`contact_health`),
the mail dispatcher (`send_email`), the contact handler (`submit_contact`)
and the database probe (`test_database`).

External effects are made explicit:
* the document store's `create_document` is modelled by a `DbOutcome`
  parameter saying whether the call raises;
* the SMTP transport is modelled by a list of `SmtpAction`s the code
  attempts, driven by an `oracle : Nat → Option String` that says which
  attempted action (if any) raises, and with which message;
* `os.getenv` results are `Option String` values carried in a `Config`
  record (Python truthiness of such a value is `truthy`).
-/

namespace Backend

/-- Python truthiness of an `os.getenv` result: `None` and `""` are falsy. -/
def truthy : Option String → Bool
  | none => false
  | some s => s ≠ ""

/-- Python `x or d` for `x : Option String` (used for `SMTP_USER or "..."`). -/
def pyOr (x : Option String) (d : String) : String :=
  match x with
  | none => d
  | some s => if s = "" then d else s

/-- The process-wide environment configuration read at module load
(`SMTP_HOST`, `SMTP_PORT`, `SMTP_USER`, `SMTP_PASS`, `TARGET_EMAIL`,
`FROM_EMAIL` in `main.py`).  `smtpPort` is the already-parsed
`int(os.getenv("SMTP_PORT", "587"))`. -/
structure Config where
  smtpHost : Option String
  smtpPort : Int
  smtpUser : Option String
  smtpPass : Option String
  targetEmailEnv : Option String
  fromEmailEnv : Option String
deriving DecidableEq, Repr

/-- `TARGET_EMAIL = os.getenv("TARGET_EMAIL", "shreyash@certiswift.in")`. -/
def TARGET_EMAIL (c : Config) : String :=
  c.targetEmailEnv.getD "shreyash@certiswift.in"

/-- `FROM_EMAIL = os.getenv("FROM_EMAIL", SMTP_USER or "noreply@portfolio.local")`. -/
def FROM_EMAIL (c : Config) : String :=
  c.fromEmailEnv.getD (pyOr c.smtpUser "noreply@portfolio.local")

/-- `bool(SMTP_HOST and SMTP_USER and SMTP_PASS)`: the configuration test
used both by `contact_health` and by the guard in `send_email`. -/
def smtpConfigured (c : Config) : Bool :=
  truthy c.smtpHost && truthy c.smtpUser && truthy c.smtpPass

/-- Response of `GET /api/contact/health` (`contact_health` in `main.py`). -/
structure HealthResponse where
  smtp_configured : Bool
  host : Option String
  port : Int
  from_email : Option String
  target_email : String
  mode : String
deriving DecidableEq, Repr

/-- `contact_health` from `main.py`, a pure function of the configuration. -/
def contact_health (c : Config) : HealthResponse :=
  let configured := smtpConfigured c
  { smtp_configured := configured
    host := if truthy c.smtpHost then some "set" else none
    port := c.smtpPort
    from_email := if configured then some (FROM_EMAIL c) else none
    target_email := TARGET_EMAIL c
    mode := if c.smtpPort = 465 then "SSL" else "STARTTLS" }

/-- The MIME message built in `send_email` (`MIMEText(body)` plus the
`Subject`, `From`, `To` and `Reply-To` headers).  `fromHeader` keeps the
`formataddr(("Portfolio", FROM_EMAIL))` pair unserialised. -/
structure Message where
  subject : String
  fromHeader : String × String
  toHeader : String
  replyTo : String
  body : String
deriving DecidableEq, Repr

/-- Message construction in `send_email` (lines 105–113 of `main.py`). -/
def buildMessage (c : Config) (name senderEmail message : String) : Message :=
  { subject := "Portfolio Collaboration: " ++ name
    fromHeader := ("Portfolio", FROM_EMAIL c)
    toHeader := TARGET_EMAIL c
    replyTo := senderEmail
    body := "New collaboration request from " ++ name ++ " <" ++ senderEmail ++
      ">\n\nMessage:\n" ++ message ++ "\n" }

/-- One observable action on the SMTP transport. -/
inductive SmtpAction where
  /-- `smtplib.SMTP_SSL(host, port, timeout=10)`: implicit-TLS connection. -/
  | connectSSL (host : String) (port : Int)
  /-- `smtplib.SMTP(host, port, timeout=10)`: plain connection. -/
  | connectPlain (host : String) (port : Int)
  /-- `server.ehlo()`. -/
  | ehlo
  /-- `server.starttls()`. -/
  | starttls
  /-- `server.login(user, password)`. -/
  | login (user password : String)
  /-- `server.sendmail(from, recipients, msg.as_string())`. -/
  | sendmail (sender : String) (recipients : List String) (msg : Message)
deriving DecidableEq, Repr

/-- The transport actions the configured branch of `send_email` performs when
nothing raises: the SSL branch for port 465, the EHLO/STARTTLS branch
otherwise (lines 115–125 of `main.py`). -/
def plannedActions (c : Config) (msg : Message) : List SmtpAction :=
  if c.smtpPort = 465 then
    [SmtpAction.connectSSL (c.smtpHost.getD "") c.smtpPort,
     SmtpAction.login (c.smtpUser.getD "") (c.smtpPass.getD ""),
     SmtpAction.sendmail (FROM_EMAIL c) [TARGET_EMAIL c] msg]
  else
    [SmtpAction.connectPlain (c.smtpHost.getD "") c.smtpPort,
     SmtpAction.ehlo,
     SmtpAction.starttls,
     SmtpAction.login (c.smtpUser.getD "") (c.smtpPass.getD ""),
     SmtpAction.sendmail (FROM_EMAIL c) [TARGET_EMAIL c] msg]

/-- Run a list of transport actions.  `oracle i = some e` means the `i`-th
attempted action raises an exception whose `str` is `e` (covering
connection, TLS upgrade, authentication and submission failures).  Returns
the trace of actions actually attempted and the error, if any. -/
def runActions (oracle : Nat → Option String) :
    Nat → List SmtpAction → List SmtpAction × Option String
  | _, [] => ([], none)
  | i, a :: rest =>
    match oracle i with
    | some e => ([a], some e)
    | none =>
      let r := runActions oracle (i + 1) rest
      (a :: r.1, r.2)

/-- `send_email` from `main.py`.  Returns the Python pair
`(bool, str | None)` together with the trace of transport actions
attempted (empty iff no network connection was attempted). -/
def send_email (c : Config) (oracle : Nat → Option String)
    (name senderEmail message : String) :
    (Bool × Option String) × List SmtpAction :=
  if !(truthy c.smtpHost && truthy c.smtpUser && truthy c.smtpPass) then
    ((false, some "SMTP not configured"), [])
  else
    let msg := buildMessage c name senderEmail message
    let r := runActions oracle 0 (plannedActions c msg)
    match r.2 with
    | none => ((true, none), r.1)
    | some e => ((false, some e), r.1)

/-- Validated contact payload (`ContactIn` in `main.py`; `email` has already
passed `EmailStr` validation at the boundary). -/
structure ContactIn where
  name : String
  email : String
  message : String
deriving DecidableEq, Repr

/-- Outcome of the external store's `create_document("contact", ...)` call:
either it succeeds or it raises an exception with message `e`. -/
inductive DbOutcome where
  | ok
  | raises (e : String)
deriving DecidableEq, Repr

/-- Response of `POST /api/contact` (`submit_contact` in `main.py`). -/
structure ContactResponse where
  ok : Bool
  email_dispatched : Bool
  target : String
  note : String
  error : Option String
  smtp_mode : String
  from_email : Option String
deriving DecidableEq, Repr

/-- The externally observable side effects of one `submit_contact` call:
the `create_document` call (collection name and document), the call into
`send_email` (its three arguments), and the SMTP transport trace. -/
structure Effects where
  dbCall : Option (String × ContactIn)
  dbErrorLogged : Option String
  mailCall : Option (String × String × String)
  smtpTrace : List SmtpAction
deriving DecidableEq, Repr

/-- `submit_contact` from `main.py` (lines 131–155): persist (swallowing any
exception), dispatch, and build the merged response. -/
def submit_contact (c : Config) (dbOut : DbOutcome) (oracle : Nat → Option String)
    (payload : ContactIn) : ContactResponse × Effects :=
  -- `create_document("contact", payload.model_dump())` is always attempted;
  -- a raised exception is only printed (`print("DB save error:", e)`).
  let dbCall := some ("contact", payload)
  let s := send_email c oracle payload.name payload.email payload.message
  let sent := s.1.1
  let error := s.1.2
  let note :=
    if sent then "Stored in DB; email sent."
    else if error = some "SMTP not configured" then
      "Stored in DB; email not sent (SMTP not configured)."
    else "Stored in DB; email attempt failed."
  ({ ok := true
     email_dispatched := sent
     target := TARGET_EMAIL c
     note := note
     error := error
     smtp_mode := if c.smtpPort = 465 then "SSL" else "STARTTLS"
     from_email := if sent then some (FROM_EMAIL c) else none },
   { dbCall := dbCall
     dbErrorLogged := match dbOut with
       | DbOutcome.ok => Option.none
       | DbOutcome.raises e => some e
     mailCall := some (payload.name, payload.email, payload.message)
     smtpTrace := s.2 })

/-- A field of the raw (not yet validated) request body: absent or a string. -/
inductive RawField where
  | missing
  | given (s : String)
deriving DecidableEq, Repr

/-- Raw request body of `POST /api/contact` before boundary validation. -/
structure RawPayload where
  name : RawField
  email : RawField
  message : RawField
deriving DecidableEq, Repr

/-- Modelled from the spec: the boundary validation of `ContactIn` performed
by the HTTP framework (FastAPI/pydantic request parsing and `EmailStr`
checking), which is not part of `src/`.  A payload is accepted only when all
three required fields are present and the email satisfies the syntactic
check `emailOk`; otherwise the request is rejected before the handler runs. -/
def validatePayload (emailOk : String → Bool) (p : RawPayload) : Option ContactIn :=
  match p.name, p.email, p.message with
  | RawField.given n, RawField.given e, RawField.given m =>
    if emailOk e then some ⟨n, e, m⟩ else none
  | _, _, _ => none

/-- The empty side-effect record: no persistence, no dispatch, no transport. -/
def Effects.none : Effects := ⟨Option.none, Option.none, Option.none, []⟩

/-- Modelled from the spec: the full request path of `POST /api/contact` —
boundary validation followed by the handler.  A payload failing validation
is rejected with a client error (HTTP 422) and the handler never runs. -/
def handle_contact_request (emailOk : String → Bool) (c : Config)
    (dbOut : DbOutcome) (oracle : Nat → Option String) (p : RawPayload) :
    Except Nat ContactResponse × Effects :=
  match validatePayload emailOk p with
  | Option.none => (Except.error 422, Effects.none)
  | some payload =>
    let r := submit_contact c dbOut oracle payload
    (Except.ok r.1, r.2)

/-- The database handle `db` from the `database` module, as `test_database`
consumes it: an optional `name` attribute (`hasattr(db, 'name')`), and the
result of `db.list_collection_names()` (a list, or a raised exception). -/
structure DbHandle where
  name : Option String
  listResult : Except String (List String)
deriving Repr

/-- Outcome of `from database import db` inside `test_database`:
`ImportError`, any other exception, or success with `db` (possibly `None`). -/
inductive ImportResult where
  | importError
  | otherError (e : String)
  | success (db : Option DbHandle)
deriving Repr

/-- Response of `GET /test` (`test_database` in `main.py`).  `database_url`
and `database_name` start as `None` in the Python dict, hence `Option`. -/
structure StatusReport where
  backend : String
  database : String
  database_url : Option String
  database_name : Option String
  connection_status : String
  collections : List String
deriving DecidableEq, Repr

/-- `test_database` from `main.py` (lines 26–68): build the probe report,
catching every failure, then overwrite `database_url` / `database_name`
from the environment variables. -/
def test_database (imp : ImportResult) (dbUrlEnv dbNameEnv : Option String) :
    StatusReport :=
  let r0 : StatusReport :=
    { backend := "✅ Running"
      database := "❌ Not Available"
      database_url := Option.none
      database_name := Option.none
      connection_status := "Not Connected"
      collections := [] }
  let r1 :=
    match imp with
    | ImportResult.importError =>
      { r0 with database := "❌ Database module not found (run enable-database first)" }
    | ImportResult.otherError e =>
      { r0 with database := "❌ Error: " ++ e.take 50 }
    | ImportResult.success Option.none =>
      { r0 with database := "⚠️  Available but not initialized" }
    | ImportResult.success (some db) =>
      let r :=
        { r0 with
          database := "✅ Available"
          database_url := some "✅ Configured"
          database_name := some (db.name.getD "✅ Connected")
          connection_status := "Connected" }
      match db.listResult with
      | Except.ok cols =>
        { r with collections := cols.take 10, database := "✅ Connected & Working" }
      | Except.error e =>
        { r with database := "⚠️  Connected but Error: " ++ e.take 50 }
  { r1 with
    database_url := some (if truthy dbUrlEnv then "✅ Set" else "❌ Not Set")
    database_name := some (if truthy dbNameEnv then "✅ Set" else "❌ Not Set") }

/-! ## Helper lemmas -/

/-- An `os.getenv` result is truthy iff it is a non-empty string. -/
theorem truthy_iff (o : Option String) :
    truthy o = true ↔ ∃ s, o = some s ∧ s ≠ "" := by
  cases o <;> simp [truthy]

/-- Every action in the attempted trace comes from the planned list. -/
theorem runActions_mem (oracle : Nat → Option String) :
    ∀ (l : List SmtpAction) (i : Nat) (a : SmtpAction),
      a ∈ (runActions oracle i l).1 → a ∈ l := by
  intro l
  induction l with
  | nil => intro i a ha; simp [runActions] at ha
  | cons b rest ih =>
    intro i a ha
    rw [runActions] at ha
    cases hoi : oracle i with
    | some e =>
      rw [hoi] at ha
      simp only [List.mem_singleton] at ha
      simp [ha]
    | none =>
      rw [hoi] at ha
      simp only [List.mem_cons] at ha
      rcases ha with h | h
      · simp [h]
      · exact List.mem_cons_of_mem _ (ih (i + 1) a h)

/-- Under the never-failing oracle the whole planned list is attempted. -/
theorem runActions_none (l : List SmtpAction) :
    ∀ i, runActions (fun _ => Option.none) i l = (l, Option.none) := by
  induction l with
  | nil => intro i; rfl
  | cons b rest ih => intro i; simp [runActions, ih]

/-- When the transport is configured, the trace of `send_email` is the trace
of running the planned actions. -/
theorem send_email_configured_trace (c : Config) (oracle : Nat → Option String)
    (n e m : String) (h : smtpConfigured c = true) :
    (send_email c oracle n e m).2 =
      (runActions oracle 0 (plannedActions c (buildMessage c n e m))).1 := by
  have hb : (truthy c.smtpHost && truthy c.smtpUser && truthy c.smtpPass) = true := h
  unfold send_email
  rw [hb]
  simp only [Bool.not_true, Bool.false_eq_true, if_false]
  split <;> rfl

/-! ## Claim theorems -/

/-- C1: For every valid `ContactSubmission`, if `create_document` raises any
exception, `submit_contact` still invokes `send_email` with the submission's
name, email and message, the response's `ok` field is true, and the response
is exactly the one a successful persistence would have produced — the
persistence failure is never surfaced to the caller. -/
theorem submit_contact_db_failure_still_dispatches (c : Config) (e : String)
    (oracle : Nat → Option String) (payload : ContactIn) :
    (submit_contact c (DbOutcome.raises e) oracle payload).2.mailCall =
      some (payload.name, payload.email, payload.message) ∧
    (submit_contact c (DbOutcome.raises e) oracle payload).1.ok = true ∧
    (submit_contact c (DbOutcome.raises e) oracle payload).1 =
      (submit_contact c DbOutcome.ok oracle payload).1 :=
  ⟨rfl, rfl, rfl⟩

/-- C2: Whenever any of the SMTP host, user or password configuration is
absent (unset or empty), `send_email` returns
`(false, "SMTP not configured")` immediately and attempts no transport
action at all (the trace is empty). -/
theorem send_email_not_configured (c : Config) (oracle : Nat → Option String)
    (name senderEmail message : String) (h : smtpConfigured c = false) :
    send_email c oracle name senderEmail message =
      ((false, some "SMTP not configured"), []) := by
  have hb : (truthy c.smtpHost && truthy c.smtpUser && truthy c.smtpPass) = false := h
  unfold send_email
  rw [hb]
  rfl

/-- Witness for C2 at a fully unset configuration. -/
theorem send_email_not_configured_witness :
    smtpConfigured ⟨Option.none, 587, Option.none, Option.none, Option.none, Option.none⟩ = false ∧
    send_email ⟨Option.none, 587, Option.none, Option.none, Option.none, Option.none⟩
        (fun _ => Option.none) "Ann" "ann@x.com" "hi" =
      ((false, some "SMTP not configured"), []) :=
  ⟨rfl, send_email_not_configured _ _ "Ann" "ann@x.com" "hi" rfl⟩

/-- C7: In every contact-submission response, `from_email` is the configured
sender address exactly when `email_dispatched` is true, and `null` otherwise. -/
theorem from_email_only_on_success (c : Config) (dbOut : DbOutcome)
    (oracle : Nat → Option String) (payload : ContactIn) :
    (submit_contact c dbOut oracle payload).1.from_email =
      (if (submit_contact c dbOut oracle payload).1.email_dispatched then
        some (FROM_EMAIL c) else Option.none) :=
  rfl

/-- C3: For every configured dispatch, port 465 selects the implicit-TLS
connection and STARTTLS (and EHLO) is never attempted on the transport,
whatever the transport does; any other port plans a plain connection,
then EHLO, then STARTTLS, before authentication and send. -/
theorem dispatch_transport_selection (c : Config) (oracle : Nat → Option String)
    (name senderEmail message : String) (h : smtpConfigured c = true) :
    (c.smtpPort = 465 →
      plannedActions c (buildMessage c name senderEmail message) =
        [SmtpAction.connectSSL (c.smtpHost.getD "") c.smtpPort,
         SmtpAction.login (c.smtpUser.getD "") (c.smtpPass.getD ""),
         SmtpAction.sendmail (FROM_EMAIL c) [TARGET_EMAIL c]
           (buildMessage c name senderEmail message)] ∧
      SmtpAction.starttls ∉ (send_email c oracle name senderEmail message).2 ∧
      SmtpAction.ehlo ∉ (send_email c oracle name senderEmail message).2) ∧
    (c.smtpPort ≠ 465 →
      plannedActions c (buildMessage c name senderEmail message) =
        [SmtpAction.connectPlain (c.smtpHost.getD "") c.smtpPort,
         SmtpAction.ehlo,
         SmtpAction.starttls,
         SmtpAction.login (c.smtpUser.getD "") (c.smtpPass.getD ""),
         SmtpAction.sendmail (FROM_EMAIL c) [TARGET_EMAIL c]
           (buildMessage c name senderEmail message)]) := by
  constructor
  · intro hp
    have hpl : plannedActions c (buildMessage c name senderEmail message) =
        [SmtpAction.connectSSL (c.smtpHost.getD "") c.smtpPort,
         SmtpAction.login (c.smtpUser.getD "") (c.smtpPass.getD ""),
         SmtpAction.sendmail (FROM_EMAIL c) [TARGET_EMAIL c]
           (buildMessage c name senderEmail message)] := by
      simp [plannedActions, hp]
    refine ⟨hpl, ?_, ?_⟩
    · intro hmem
      rw [send_email_configured_trace c oracle name senderEmail message h] at hmem
      have hin := runActions_mem oracle _ 0 _ hmem
      rw [hpl] at hin
      simp at hin
    · intro hmem
      rw [send_email_configured_trace c oracle name senderEmail message h] at hmem
      have hin := runActions_mem oracle _ 0 _ hmem
      rw [hpl] at hin
      simp at hin
  · intro hp
    simp [plannedActions, hp]

/-- Witness for C3 at a configured port-465 setup: no STARTTLS attempted. -/
theorem dispatch_transport_selection_witness :
    SmtpAction.starttls ∉
      (send_email ⟨some "smtp.example.com", 465, some "user", some "pass",
        Option.none, Option.none⟩ (fun _ => Option.none) "Ann" "ann@x.com" "hi").2 :=
  ((dispatch_transport_selection _ _ "Ann" "ann@x.com" "hi" (by decide)).1 rfl).2.1

/-- An `os.getenv` value holding a non-empty string. -/
def nonEmptyStr (o : Option String) : Prop := ∃ s, o = some s ∧ s ≠ ""

/-- C6: `contact_health` (a pure function of the configuration in this
embedding) reports `smtp_configured = true` iff host, user and password are
all non-empty, and reports mode `"SSL"` exactly for port 465 and
`"STARTTLS"` for every other port. -/
theorem contact_health_fields (c : Config) :
    ((contact_health c).smtp_configured = true ↔
      nonEmptyStr c.smtpHost ∧ nonEmptyStr c.smtpUser ∧ nonEmptyStr c.smtpPass) ∧
    ((contact_health c).mode = "SSL" ↔ c.smtpPort = 465) ∧
    (c.smtpPort ≠ 465 → (contact_health c).mode = "STARTTLS") := by
  refine ⟨?_, ?_, ?_⟩
  · show smtpConfigured c = true ↔ _
    simp only [smtpConfigured, Bool.and_eq_true, truthy_iff]
    simp [nonEmptyStr, and_assoc]
  · by_cases hp : c.smtpPort = 465 <;> simp [contact_health, hp]
  · intro hp
    simp [contact_health, hp]

/-- Witness for C6 at a full-credential port-587 configuration. -/
theorem contact_health_fields_witness :
    (contact_health ⟨some "h", 587, some "u", some "p", Option.none, Option.none⟩).mode =
      "STARTTLS" ∧
    (contact_health ⟨some "h", 587, some "u", some "p", Option.none, Option.none⟩).smtp_configured =
      true :=
  ⟨(contact_health_fields _).2.2 (by decide),
   (contact_health_fields _).1.mpr
     ⟨⟨"h", rfl, by decide⟩, ⟨"u", rfl, by decide⟩, ⟨"p", rfl, by decide⟩⟩⟩

/-- Recognises the `server.sendmail(...)` transport action. -/
def isSendAction : SmtpAction → Bool
  | SmtpAction.sendmail _ _ _ => true
  | _ => false

/-- C9: For every configured dispatch, the message has subject
`"Portfolio Collaboration: <name>"`, a body containing the sender's name,
email and message text in order, a Reply-To equal to the submitter's email,
and the only send action submits to the single fixed target recipient. -/
theorem dispatch_message_shape (c : Config) (name senderEmail message : String)
    (h : smtpConfigured c = true) :
    (buildMessage c name senderEmail message).subject =
      "Portfolio Collaboration: " ++ name ∧
    (buildMessage c name senderEmail message).replyTo = senderEmail ∧
    (∃ s1 s2 s3 s4, (buildMessage c name senderEmail message).body =
      s1 ++ name ++ s2 ++ senderEmail ++ s3 ++ message ++ s4) ∧
    List.filter isSendAction (send_email c (fun _ => Option.none) name senderEmail message).2 =
      [SmtpAction.sendmail (FROM_EMAIL c) [TARGET_EMAIL c]
        (buildMessage c name senderEmail message)] := by
  refine ⟨rfl, rfl,
    ⟨"New collaboration request from ", " <", ">\n\nMessage:\n", "\n", rfl⟩, ?_⟩
  rw [send_email_configured_trace c _ name senderEmail message h,
    runActions_none _ 0]
  by_cases hp : c.smtpPort = 465 <;> simp [plannedActions, hp, isSendAction]

/-- Witness for C9 at a configured port-465 setup. -/
theorem dispatch_message_shape_witness :
    (buildMessage ⟨some "smtp.example.com", 465, some "user", some "pass",
        Option.none, Option.none⟩ "Ann" "ann@x.com" "hi").subject =
      "Portfolio Collaboration: " ++ "Ann" ∧
    List.filter isSendAction
        (send_email ⟨some "smtp.example.com", 465, some "user", some "pass",
          Option.none, Option.none⟩ (fun _ => Option.none) "Ann" "ann@x.com" "hi").2 =
      [SmtpAction.sendmail
        (FROM_EMAIL ⟨some "smtp.example.com", 465, some "user", some "pass",
          Option.none, Option.none⟩)
        [TARGET_EMAIL ⟨some "smtp.example.com", 465, some "user", some "pass",
          Option.none, Option.none⟩]
        (buildMessage ⟨some "smtp.example.com", 465, some "user", some "pass",
          Option.none, Option.none⟩ "Ann" "ann@x.com" "hi")] :=
  ⟨(dispatch_message_shape _ "Ann" "ann@x.com" "hi" (by decide)).1,
   (dispatch_message_shape _ "Ann" "ann@x.com" "hi" (by decide)).2.2.2⟩

/-- C4 counterexample: with the transport entirely unconfigured, the
dispatch result's `error` component is `some "SMTP not configured"` — it is
present (non-null) even though no configured transport attempt failed, so
the error attribute is not absent in the unconfigured case. -/
theorem mail_error_field_counterexample :
    smtpConfigured ⟨Option.none, 587, Option.none, Option.none, Option.none, Option.none⟩ =
      false ∧
    (send_email ⟨Option.none, 587, Option.none, Option.none, Option.none, Option.none⟩
        (fun _ => Option.none) "Ann" "ann@x.com" "hi").1.2 =
      some "SMTP not configured" ∧
    (submit_contact ⟨Option.none, 587, Option.none, Option.none, Option.none, Option.none⟩
        DbOutcome.ok (fun _ => Option.none) ⟨"Ann", "ann@x.com", "hi"⟩).1.error ≠
      Option.none :=
  ⟨rfl, rfl, by decide⟩

/-- C4 (amended): the `error` component of the dispatch result is non-null
exactly when `sent` is false; when the transport is not configured it is the
sentinel `"SMTP not configured"` rather than being absent. -/
theorem mail_error_iff_not_sent (c : Config) (oracle : Nat → Option String)
    (name senderEmail message : String) :
    ((send_email c oracle name senderEmail message).1.2 = Option.none ↔
      (send_email c oracle name senderEmail message).1.1 = true) ∧
    (smtpConfigured c = false →
      (send_email c oracle name senderEmail message).1.2 = some "SMTP not configured") := by
  constructor
  · unfold send_email
    cases hb : (truthy c.smtpHost && truthy c.smtpUser && truthy c.smtpPass) with
    | false => simp
    | true =>
      simp only [Bool.not_true, Bool.false_eq_true, if_false]
      split <;> simp
  · intro hc
    rw [send_email_not_configured c oracle name senderEmail message hc]

/-- Witness for the amended C4 at an unconfigured setup. -/
theorem mail_error_iff_not_sent_witness :
    (send_email ⟨Option.none, 587, Option.none, Option.none, Option.none, Option.none⟩
        (fun _ => Option.none) "Ann" "ann@x.com" "hi").1.2 =
      some "SMTP not configured" :=
  (mail_error_iff_not_sent _ _ "Ann" "ann@x.com" "hi").2 rfl

/-- C5: A payload that fails boundary validation (missing field or failing
the email check) is rejected with a client error and produces no side
effects: no persistence call, no dispatch call, no transport action. -/
theorem invalid_payload_no_side_effects (emailOk : String → Bool) (c : Config)
    (dbOut : DbOutcome) (oracle : Nat → Option String) (p : RawPayload)
    (h : validatePayload emailOk p = Option.none) :
    handle_contact_request emailOk c dbOut oracle p =
      (Except.error 422, Effects.none) := by
  unfold handle_contact_request
  rw [h]

/-- Witness for C5 on `{name:"", email:"not-an-email", message:"x"}` with an
email check requiring an `@`. -/
theorem invalid_payload_no_side_effects_witness :
    validatePayload (fun s => s.data.contains '@')
        ⟨RawField.given "", RawField.given "not-an-email", RawField.given "x"⟩ =
      Option.none ∧
    handle_contact_request (fun s => s.data.contains '@')
        ⟨Option.none, 587, Option.none, Option.none, Option.none, Option.none⟩
        DbOutcome.ok (fun _ => Option.none)
        ⟨RawField.given "", RawField.given "not-an-email", RawField.given "x"⟩ =
      (Except.error 422, Effects.none) :=
  ⟨by decide,
   invalid_payload_no_side_effects _ _ DbOutcome.ok (fun _ => Option.none) _ (by decide)⟩

/-- C8: `test_database` always yields a structured report: every probe
failure becomes a descriptive status string in the `database` field, and the
`collections` list never holds more than 10 names. -/
theorem test_database_always_reports (imp : ImportResult)
    (dbUrlEnv dbNameEnv : Option String) :
    (test_database imp dbUrlEnv dbNameEnv).collections.length ≤ 10 ∧
    (imp = ImportResult.importError →
      (test_database imp dbUrlEnv dbNameEnv).database =
        "❌ Database module not found (run enable-database first)") ∧
    (∀ e, imp = ImportResult.otherError e →
      (test_database imp dbUrlEnv dbNameEnv).database = "❌ Error: " ++ e.take 50) ∧
    (∀ db e, imp = ImportResult.success (some db) → db.listResult = Except.error e →
      (test_database imp dbUrlEnv dbNameEnv).database =
        "⚠️  Connected but Error: " ++ e.take 50) := by
  refine ⟨?_, ?_, ?_, ?_⟩
  · cases imp with
    | importError => simp [test_database]
    | otherError e => simp [test_database]
    | success db =>
      cases db with
      | none => simp [test_database]
      | some d =>
        cases hl : d.listResult with
        | ok cols =>
          simp [test_database, hl, List.length_take]
        | error e => simp [test_database, hl]
  · intro h; subst h; rfl
  · intro e h; subst h; rfl
  · intro db e h hl
    subst h
    simp [test_database, hl]

/-- Witness for C8 on a connected handle whose enumeration raises. -/
theorem test_database_always_reports_witness :
    (test_database (ImportResult.success (some ⟨some "mydb", Except.error "boom"⟩))
        Option.none Option.none).database = "⚠️  Connected but Error: " ++ "boom".take 50 ∧
    (test_database (ImportResult.success (some ⟨some "mydb", Except.error "boom"⟩))
        Option.none Option.none).collections.length ≤ 10 :=
  ⟨(test_database_always_reports _ _ _).2.2.2 ⟨some "mydb", Except.error "boom"⟩ "boom" rfl rfl,
   (test_database_always_reports _ _ _).1⟩

/-- C10: the final `database_url` / `database_name` fields of the report are
`"✅ Set"` or `"❌ Not Set"` determined solely by the `DATABASE_URL` /
`DATABASE_NAME` environment variables, overwriting whatever the probe wrote
there (the fields do not depend on the probe outcome at all). -/
theorem env_flags_overwrite_probe (imp : ImportResult)
    (dbUrlEnv dbNameEnv : Option String) :
    (test_database imp dbUrlEnv dbNameEnv).database_url =
      some (if truthy dbUrlEnv then "✅ Set" else "❌ Not Set") ∧
    (test_database imp dbUrlEnv dbNameEnv).database_name =
      some (if truthy dbNameEnv then "✅ Set" else "❌ Not Set") ∧
    (test_database imp dbUrlEnv dbNameEnv).database_url =
      (test_database ImportResult.importError dbUrlEnv dbNameEnv).database_url ∧
    (test_database imp dbUrlEnv dbNameEnv).database_name =
      (test_database ImportResult.importError dbUrlEnv dbNameEnv).database_name :=
  ⟨rfl, rfl, rfl, rfl⟩

end Backend
